import Mathlib

set_option linter.unusedVariables false

/-! Shallow embedding of the deliverability-verification core of the
validate_email package: the address model (src/validate_email/email_address.py),
the MX record cleaning (src/validate_email/mx_check.py and
src/validate_email/dns_check.py) and the SMTP probing and aggregation logic
(src/validate_email/smtp_check.py).  Python strings are modelled as lists of
characters; external collaborators (the idna transcoder, the DNS client, the
smtplib transport and the stdlib IP parser) are parameters or event alphabets,
as described at each definition. -/

/-- Strings of the embedding: Python str values as lists of characters. -/
abbrev Str := List Char

/-- Decide whether a character is an ASCII letter or a digit; both cases are
admitted, mirroring the IGNORECASE flag on HOST_REGEX in constants.py. -/
def isAlnumAscii (c : Char) : Bool :=
  ('A' ≤ c && c ≤ 'Z') || ('a' ≤ c && c ≤ 'z') || ('0' ≤ c && c ≤ '9')

/-- Decide whether a character may occur inside a hostname label:
an ASCII letter, a digit, or a hyphen. -/
def isLabelChar (c : Char) : Bool := isAlnumAscii c || c = '-'

/-- Match of one inner label of HOST_REGEX in constants.py, the piece
[A-Z0-9](?:[A-Z0-9-]{0,61}[A-Z0-9])? before a dot: a single alphanumeric
character, or 2 to 63 characters starting and ending alphanumeric with
letters, digits or hyphens in between. -/
def labelOk (l : Str) : Bool :=
  match l with
  | [] => false
  | [c] => isAlnumAscii c
  | c :: rest =>
    isAlnumAscii c && l.length ≤ 63 && rest.dropLast.all isLabelChar &&
      (match rest.getLast? with
       | some d => isAlnumAscii d
       | none => false)

/-- Match of the final label of HOST_REGEX in constants.py, the piece
(?:[A-Z0-9-]{2,63}(?<!-)): 2 to 63 letters, digits or hyphens, not ending in
a hyphen (a leading hyphen is not excluded by the regular expression). -/
def finalLabelOk (l : Str) : Bool :=
  2 ≤ l.length && l.length ≤ 63 && l.all isLabelChar &&
    (match l.getLast? with
     | some d => d ≠ '-'
     | none => false)

/-- Match of the full anchored HOST_REGEX pattern against a whole string:
one or more inner labels each followed by a dot, then a final label.  As
neither label piece can contain a dot, this is equivalent to splitting on
dots and checking each part. -/
def hostPatternOk (s : Str) : Bool :=
  let parts := s.splitOn '.'
  2 ≤ parts.length && parts.dropLast.all labelOk && finalLabelOk (parts.getLastD [])

/-- Python re.search with the end-anchored HOST_REGEX (constants.py): the
match may start at any position but must extend to the end of the string,
so the test is whether some suffix matches the whole pattern. -/
def hostRegexSearch (s : Str) : Bool :=
  (List.range (s.length + 1)).any fun k => hostPatternOk (s.drop k)

/-- Python str.rstrip with argument a dot, as used on MX exchange hostnames
(mx_check.py line 49, dns_check.py line 108): remove all trailing dots. -/
def rstripDots (s : Str) : Str := (s.reverse.dropWhile (fun c => c = '.')).reverse

/-- Deduplication loop of _get_cleaned_mx_records (mx_check.py lines 46-53,
dns_check.py lines 104-113): walk the stripped exchange hostnames in answer
order, skipping any hostname already in the seen set and appending the rest. -/
def toCheckAux : List Str → List Str → List Str
  | [], _ => []
  | r :: rs, seen =>
    let dnsStr := rstripDots r
    if dnsStr ∈ seen then toCheckAux rs seen
    else dnsStr :: toCheckAux rs (dnsStr :: seen)

/-- The to_check list of _get_cleaned_mx_records, built from an empty seen
set. -/
def toCheckList (records : List Str) : List Str := toCheckAux records []

/-- Canonical first-seen deduplication: keep the first occurrence of each
element and drop all later ones.  Used to state what the seen-set loop of
_get_cleaned_mx_records computes. -/
def firstSeenDedup : List Str → List Str
  | [] => []
  | x :: xs => x :: firstSeenDedup (xs.filter (fun y => decide (y ≠ x)))
termination_by l => l.length
decreasing_by
  simp only [List.length_cons]
  exact Nat.lt_succ_of_le (List.length_filter_le _ _)

/-- Typed errors of MX resolution (exceptions.py classes derived from
MXError), plus a marker for the uncaught Python ValueError that
ipaddress.ip_address raises inside dns_check on an unparsable literal. -/
inductive MXErr where
  | domainNotFound
  | noNameserver
  | dnsTimeout
  | dnsConfiguration
  | noMX
  | noValidMX
  | valueErrorUncaught
deriving DecidableEq

/-- Cleaning stage of _get_cleaned_mx_records (mx_check.py lines 40-57;
dns_check.py lines 102-117 share the same lines before handing the result to
per-host address resolution): given the exchange hostname texts of a
successful MX answer in processing order, strip trailing dots, deduplicate
with a seen set, keep only the hostnames accepted by HOST_REGEX, and raise
NoValidMXError when nothing is left. -/
def getCleanedMxRecords (records : List Str) : Except MXErr (List Str) :=
  let result := (toCheckList records).filter hostRegexSearch
  if result = [] then .error .noValidMX else .ok result

/-- Split a string at the last occurrence of a separator, Python
str.rsplit(sep, 1) as used in email_address.py line 22; none when the
separator does not occur (Python raises ValueError, caught and turned into
AddressFormatError by the caller). -/
def rsplitLast (sep : Char) : Str → Option (Str × Str)
  | [] => none
  | c :: cs =>
    match rsplitLast sep cs with
    | some (u, d) => some (c :: u, d)
    | none => if c = sep then some ([], cs) else none

/-- The domain_literal_ip property of EmailAddress (email_address.py lines
51-59): when the domain starts with an opening and ends with a closing
bracket, the enclosed text, otherwise Python None. -/
def domainLiteralIp (d : Str) : Option Str :=
  if d.head? = some '[' ∧ d.getLast? = some ']' then some ((d.drop 1).dropLast)
  else none

/-- Truthiness of the domain_literal_ip property at its Python call sites
(email_address.py line 27, dns_check.py line 135): the property is truthy
when it is not None and the enclosed text is nonempty. -/
def literalTruthy (d : Str) : Bool :=
  match domainLiteralIp d with
  | some lit => !lit.isEmpty
  | none => false

/-- State of a constructed EmailAddress object (email_address.py): the user
and domain part from the split and the ACE-encoded domain.  The raw address
is recoverable as user, separator, domain; the ace property is derived
below. -/
structure EmailAddress where
  user : Str
  domain : Str
  ace_domain : Str
deriving DecidableEq

/-- The ace property of EmailAddress (email_address.py lines 61-64): the
user part joined to the ACE domain by the separator. -/
def EmailAddress.ace (e : EmailAddress) : Str := e.user ++ '@' :: e.ace_domain

/-- Failure of EmailAddress construction: AddressFormatError
(exceptions.py). -/
inductive AddressFormatErr where
  | formatError
deriving DecidableEq

/-- Constructor EmailAddress.init (email_address.py lines 17-33),
parametrised by the external IDNA transcoder enc (idna.core.encode, an
external collaborator per section 6 of the spec): split on the last at-sign
(ValueError becomes AddressFormatError), keep a truthy literal-IP domain
unchanged, and ACE-transcode any other domain (IDNAError becomes
AddressFormatError). -/
def mkEmailAddress (enc : Str → Option Str) (address : Str) :
    Except AddressFormatErr EmailAddress :=
  match rsplitLast '@' address with
  | none => .error .formatError
  | some (u, d) =>
    if literalTruthy d then .ok ⟨u, d, d⟩
    else
      match enc d with
      | some a => .ok ⟨u, d, a⟩
      | none => .error .formatError

/-- Modelled from the spec: the external IDNA/ACE transcoder of section 6
(toASCII returning a string or an error), which is the idna library and not
part of src/.  Per section 8 an ASCII-only domain's ACE encoding equals
itself; the empty domain and domains holding characters outside lowercase
ASCII letters, digits, dot and hyphen are rejected. -/
def idnaModel (d : Str) : Option Str :=
  if !d.isEmpty &&
      d.all (fun c => ('a' ≤ c && c ≤ 'z') || ('0' ≤ c && c ≤ '9') || c = '.' || c = '-')
  then some d else none

/-- Address families accepted by dns_check, the types IPv4Address and
IPv6Address of the stdlib ipaddress module. -/
inductive IPKind where
  | v4
  | v6
deriving DecidableEq

/-- Modelled from the spec: the external stdlib IP-address classifier
consumed by dns_check (transport-level address handling is external per
section 6, and the ipaddress module is not part of src/); this model
recognises dotted-quad IPv4 literals. -/
def ipModel (s : Str) : Option IPKind :=
  let parts := s.splitOn '.'
  if parts.length = 4 &&
      parts.all (fun p =>
        !p.isEmpty && p.all (fun c => '0' ≤ c && c ≤ '9') &&
          p.foldl (fun n c => n * 10 + (c.toNat - 48)) 0 ≤ 255)
  then some .v4 else none

/-- The dns_check entry point (dns_check.py lines 124-143), parametrised by
the external IP classifier ipParse (ipaddress.ip_address combined with the
type membership test against address_types) and by the whole non-literal
branch nonLiteral (the call to _get_cleaned_mx_records with the domain,
which is where every DNS query happens).  A truthy literal-IP domain
short-circuits: the literal is classified, checked against the accepted
address types, and returned as the single candidate without touching
nonLiteral; an unparsable literal is the uncaught Python ValueError. -/
def dns_check (nonLiteral : Str → Except MXErr (List Str))
    (ipParse : Str → Option IPKind) (addressTypes : List IPKind)
    (e : EmailAddress) : Except MXErr (List Str) :=
  if literalTruthy e.domain then
    let lit := (domainLiteralIp e.domain).getD []
    match ipParse lit with
    | none => .error .valueErrorUncaught
    | some k => if k ∈ addressTypes then .ok [lit] else .error .noValidMX
  else nonLiteral e.domain

/-- Stages of one SMTP probe, the values the checker's private command
attribute takes (set by putcmd, smtp_check.py lines 49-58, and by connect,
line 67) when an error is recorded for a host. -/
inductive Stage where
  | connect
  | starttls
  | helo
  | mailFrom
  | rcptTo
deriving DecidableEq

/-- The SMTPMessage record of exceptions.py: the command in progress, the
reply code and the reply text recorded per host.  The live smtp_check.py
variant adds a field carrying the raw Python exception objects, which has no
observable content in this model. -/
structure SMTPMessage where
  command : Stage
  code : Int
  text : Str
deriving DecidableEq

/-- Per-host error maps: Python dicts keyed by hostname, insertion
ordered. -/
abbrev ErrMap := List (Str × SMTPMessage)

/-- Python dict assignment: overwrite the value in place when the key
exists, otherwise append the pair at the end. -/
def dictSet (m : ErrMap) (k : Str) (v : SMTPMessage) : ErrMap :=
  if m.any (fun p => p.1 = k) then m.map (fun p => if p.1 = k then (k, v) else p)
  else m ++ [(k, v)]

/-- Outcome of the TCP connect plus server banner as seen by the overridden
connect (smtp_check.py lines 60-79): an OS-level failure of the transport,
or a banner reply with code and text. -/
inductive ConnectEvent where
  | osError (text : Str)
  | reply (code : Int) (text : Str)
deriving DecidableEq

/-- Outcome of the STARTTLS step as seen by the overridden starttls
(smtp_check.py lines 81-95) around smtplib.SMTP.starttls: a successful
upgrade, a swallowed absence of support on either side, an SSL handshake
failure, a non-220 command reply, or a lost connection. -/
inductive TlsEvent where
  | ok
  | notSupported
  | noSslSupport
  | sslError (text : Str)
  | reply (code : Int) (text : Str)
  | disconnected (text : Str)
deriving DecidableEq

/-- Outcome of one plain command exchange (the EHLO/HELO negotiation of
smtplib.SMTP.ehlo_or_helo_if_needed, the overridden mail, the overridden
rcpt): a reply with code and text, or a lost connection. -/
inductive CmdEvent where
  | reply (code : Int) (text : Str)
  | disconnected (text : Str)
deriving DecidableEq

/-- Outcome of the QUIT exchange inside the overridden quit (smtp_check.py
lines 124-135): a normal reply, or a lost connection. -/
inductive QuitEvent where
  | ok
  | disconnected
deriving DecidableEq

/-- Script of one SMTP server's behaviour over the probe stages; the probe
consumes the events in stage order and stops at the first failing stage. -/
structure HostScript where
  connectEv : ConnectEvent
  tlsEv : TlsEvent
  heloEv : CmdEvent
  mailEv : CmdEvent
  rcptEv : CmdEvent
  quitEv : QuitEvent
deriving DecidableEq

/-- Exception thrown by the protocol body of _check_one before the finally
block runs: a lost connection (SMTPServerDisconnected), a negative command
reply (SMTPResponseException, also covering SMTPHeloError), the
AddressNotDeliverableError raised inside the overridden rcpt on a 5xx
recipient reply, or the TLSNegotiationError raised inside the overridden
starttls. -/
inductive BodyExc where
  | serverDisconnected (stage : Stage) (text : Str)
  | responseExc (stage : Stage) (code : Int) (text : Str)
  | notDeliverable (code : Int) (text : Str)
  | tlsNegotiation (text : Str)
deriving DecidableEq

/-- Protocol body of _SMTPChecker._check_one (smtp_check.py lines 163-169):
connect, optional STARTTLS, EHLO/HELO, MAIL FROM, RCPT TO, each wrapped
command translated to the exception the overridden methods raise.  The
overridden connect raises on a banner of 400 or above (line 77), smtplib's
hello negotiation raises unless the reply code is in 200-299, the overridden
mail raises on 400 or above (line 104), and the overridden rcpt raises
AddressNotDeliverableError on 500 or above and SMTPResponseException on
400-499 (lines 113-121).  On normal completion the RCPT TO reply code is
returned (necessarily below 400). -/
def bodyRun (skipTls : Bool) (s : HostScript) : Except BodyExc Int :=
  match s.connectEv with
  | .osError t => .error (.serverDisconnected .connect t)
  | .reply c t =>
    if c ≥ 400 then .error (.responseExc .connect c t)
    else
      let tlsStep : Except BodyExc Unit :=
        if skipTls then .ok ()
        else
          match s.tlsEv with
          | .ok => .ok ()
          | .notSupported => .ok ()
          | .noSslSupport => .ok ()
          | .sslError t' => .error (.tlsNegotiation t')
          | .reply c' t' => .error (.responseExc .starttls c' t')
          | .disconnected t' => .error (.serverDisconnected .starttls t')
      match tlsStep with
      | .error e => .error e
      | .ok _ =>
        match s.heloEv with
        | .disconnected t' => .error (.serverDisconnected .helo t')
        | .reply ch th =>
          if 200 ≤ ch ∧ ch ≤ 299 then
            match s.mailEv with
            | .disconnected t' => .error (.serverDisconnected .mailFrom t')
            | .reply cm tm =>
              if cm ≥ 400 then .error (.responseExc .mailFrom cm tm)
              else
                match s.rcptEv with
                | .disconnected t' => .error (.serverDisconnected .rcptTo t')
                | .reply cr tr =>
                  if cr ≥ 500 then .error (.notDeliverable cr tr)
                  else if cr ≥ 400 then .error (.responseExc .rcptTo cr tr)
                  else .ok cr
          else .error (.responseExc .helo ch th)

/-- Typed exceptions that escape _check_one and terminate the host loop:
AddressNotDeliverableError and SMTPCommunicationError, each carrying a
per-host error map. -/
inductive CheckExc where
  | addressNotDeliverable (m : ErrMap)
  | smtpCommunication (m : ErrMap)
deriving DecidableEq

/-- Result of one _check_one call: the returned Boolean or the escaping
exception, the updated temporary-error dict, and whether the finally-block
cleanup left the connection closed. -/
structure OneResult where
  res : Except CheckExc Bool
  temp : ErrMap
  closed : Bool

/-- Cleanup of the overridden quit (smtp_check.py lines 124-135): a normal
QUIT reply ends with the connection closed; an SMTPServerDisconnected is
caught, the session state reset and close() called, so on either path the
connection ends closed and no exception escapes the cleanup. -/
def quitCleanup : QuitEvent → Bool
  | .ok => true
  | .disconnected => true

/-- One host probe: _SMTPChecker._check_one (smtp_check.py lines 152-184)
with its except clauses and the translation of
_handle_smtpresponseexception (lines 137-150).  A lost connection is
recorded as a temporary error with code 451 and the command in progress; a
negative reply of 500 or above before RCPT TO raises
SMTPCommunicationError with a fresh single-host map; a negative reply below
500 is recorded as a temporary error; a TLS negotiation failure is recorded
as a temporary error with code -1; the AddressNotDeliverableError from rcpt
propagates with its single-host map.  The finally-block cleanup
(self.quit()) runs on every branch before the outcome is produced. -/
def checkOne (skipTls : Bool) (temp : ErrMap) (host : Str) (s : HostScript) :
    OneResult :=
  let closed := quitCleanup s.quitEv
  match bodyRun skipTls s with
  | .ok code => ⟨.ok (decide (code < 400)), temp, closed⟩
  | .error (.serverDisconnected st t) =>
    ⟨.ok false, dictSet temp host ⟨st, 451, t⟩, closed⟩
  | .error (.responseExc st c t) =>
    if c ≥ 500 then ⟨.error (.smtpCommunication [(host, ⟨st, c, t⟩)]), temp, closed⟩
    else ⟨.ok false, dictSet temp host ⟨st, c, t⟩, closed⟩
  | .error (.tlsNegotiation t) =>
    ⟨.ok false, dictSet temp host ⟨.starttls, -1, t⟩, closed⟩
  | .error (.notDeliverable c t) =>
    ⟨.error (.addressNotDeliverable [(host, ⟨.rcptTo, c, t⟩)]), temp, closed⟩

/-- Aggregate outcome of _SMTPChecker.check and smtp_check: the returned
Boolean, or the raised typed exception with its per-host error map. -/
inductive CheckResult where
  | returnedTrue
  | returnedFalse
  | addressNotDeliverable (m : ErrMap)
  | smtpCommunication (m : ErrMap)
  | smtpTemporary (m : ErrMap)
deriving DecidableEq

/-- Host iteration of _SMTPChecker.check (smtp_check.py lines 186-198),
threading the temporary-error dict: return True as soon as one probe
returns True, let typed exceptions propagate, and after exhausting the
hosts raise SMTPTemporaryError when temporary errors were collected, else
return False. -/
def checkLoop (skipTls : Bool) : ErrMap → List (Str × HostScript) → CheckResult
  | temp, [] => if temp = [] then .returnedFalse else .smtpTemporary temp
  | temp, (host, s) :: rest =>
    let r := checkOne skipTls temp host s
    match r.res with
    | .ok true => .returnedTrue
    | .ok false => checkLoop skipTls r.temp rest
    | .error (.addressNotDeliverable m) => .addressNotDeliverable m
    | .error (.smtpCommunication m) => .smtpCommunication m

/-- The smtp_check entry point (smtp_check.py lines 201-229): construct the
checker with an empty temporary-error dict and run check over the MX
records. -/
def smtp_check (skipTls : Bool) (hosts : List (Str × HostScript)) : CheckResult :=
  checkLoop skipTls [] hosts

/-- Script of a server that accepts the recipient: reply 220 banner, TLS
fine, 250 to HELO, MAIL FROM and RCPT TO. -/
def scriptAccept : HostScript :=
  ⟨.reply 220 "banner".data, .ok, .reply 250 "helo".data,
    .reply 250 "mail".data, .reply 250 "accepted".data, .ok⟩

/-- Script of a server that rejects the recipient with 550 at RCPT TO. -/
def scriptReject550 : HostScript :=
  ⟨.reply 220 "banner".data, .ok, .reply 250 "helo".data,
    .reply 250 "mail".data, .reply 550 "no".data, .ok⟩

/-- Script of a host whose TCP connection is refused at connect time. -/
def scriptRefusedTcp : HostScript :=
  ⟨.osError "refused".data, .ok, .reply 250 "helo".data,
    .reply 250 "mail".data, .reply 250 "accepted".data, .ok⟩

/-- Script of a server that greylists: 451 at RCPT TO. -/
def scriptRcpt451 : HostScript :=
  ⟨.reply 220 "banner".data, .ok, .reply 250 "helo".data,
    .reply 250 "mail".data, .reply 451 "grey".data, .ok⟩

/-- Script of a server that refuses MAIL FROM with a permanent 550. -/
def scriptMail550 : HostScript :=
  ⟨.reply 220 "banner".data, .ok, .reply 250 "helo".data,
    .reply 550 "policy".data, .reply 250 "accepted".data, .ok⟩

theorem checkOne_closed_eq (skipTls : Bool) (temp : ErrMap) (host : Str)
    (s : HostScript) :
    (checkOne skipTls temp host s).closed = quitCleanup s.quitEv := by
  unfold checkOne
  cases hb : bodyRun skipTls s with
  | ok code => rfl
  | error e =>
    cases e with
    | serverDisconnected st t => rfl
    | responseExc st c t => by_cases h : c ≥ 500 <;> simp [h]
    | notDeliverable c t => rfl
    | tlsNegotiation t => rfl

theorem checkOne_quit_independent (skipTls : Bool) (temp : ErrMap) (host : Str)
    (s : HostScript) (q : QuitEvent) :
    (checkOne skipTls temp host { s with quitEv := q }).res
        = (checkOne skipTls temp host s).res ∧
      (checkOne skipTls temp host { s with quitEv := q }).temp
        = (checkOne skipTls temp host s).temp := by
  obtain ⟨ce, te, he, me, re, qe⟩ := s
  unfold checkOne
  have hb : bodyRun skipTls ⟨ce, te, he, me, re, q⟩
      = bodyRun skipTls ⟨ce, te, he, me, re, qe⟩ := rfl
  rw [hb]
  cases hbb : bodyRun skipTls (⟨ce, te, he, me, re, qe⟩ : HostScript) with
  | ok code => exact ⟨rfl, rfl⟩
  | error e =>
    cases e with
    | serverDisconnected st t => exact ⟨rfl, rfl⟩
    | responseExc st c t => by_cases h : c ≥ 500 <;> simp [h]
    | notDeliverable c t => exact ⟨rfl, rfl⟩
    | tlsNegotiation t => exact ⟨rfl, rfl⟩

/-- Claim C9: for every probe of one host, regardless of which branch
produces the outcome (acceptance, 5xx rejection, ambiguous result, or any
exception at any stage), the QUIT/close cleanup of the finally block is
executed and leaves the connection closed before the per-host outcome or
exception propagates, and failures during that cleanup are swallowed: the
returned result and the recorded temporary errors do not depend on the
outcome of the QUIT exchange. -/
theorem probe_cleanup_always_runs (skipTls : Bool) (temp : ErrMap) (host : Str)
    (s : HostScript) (q : QuitEvent) :
    (checkOne skipTls temp host s).closed = true ∧
      (checkOne skipTls temp host { s with quitEv := q }).res
        = (checkOne skipTls temp host s).res ∧
      (checkOne skipTls temp host { s with quitEv := q }).temp
        = (checkOne skipTls temp host s).temp := by
  refine ⟨?_, checkOne_quit_independent skipTls temp host s q⟩
  rw [checkOne_closed_eq]
  cases s.quitEv <;> rfl

/-- Claim C10: for the empty host list, smtp_check returns False: the loop
body never runs, the temporary-error dict stays empty, and none of the
typed SMTP errors is raised. -/
theorem empty_host_list_returns_false (skipTls : Bool) :
    smtp_check skipTls [] = .returnedFalse := rfl

/-- Claim C4: from any reachable loop state, as soon as a host's probe body
completes normally with an RCPT TO code in the 200 to 399 range, check
returns True immediately; the remaining hosts (quantified arbitrarily) are
never probed. -/
theorem rcpt_accepted_short_circuits (skipTls : Bool) (temp : ErrMap)
    (host : Str) (s : HostScript) (c : Int) (rest : List (Str × HostScript))
    (hb : bodyRun skipTls s = .ok c) (h₁ : 200 ≤ c) (h₂ : c ≤ 399) :
    checkLoop skipTls temp ((host, s) :: rest) = .returnedTrue := by
  have h400 : c < 400 := by omega
  simp [checkLoop, checkOne, hb, h400]

/-- Witness for C4: the first host accepts with 250 and check returns True
even though the second host would reject. -/
theorem rcpt_accepted_short_circuits_witness :
    checkLoop false [] [("mx1".data, scriptAccept), ("mx2".data, scriptReject550)]
      = .returnedTrue :=
  rcpt_accepted_short_circuits false [] "mx1".data scriptAccept 250
    [("mx2".data, scriptReject550)] (by rfl) (by decide) (by decide)

/-- Counterexample to claim C1 as stated: with two hosts that both answer
550 to RCPT TO, check raises AddressNotDeliverableError at the first host,
with a per-host error map containing only that first host; the second
rejecting host does not appear in the map, so the check did not probe every
host and the map does not contain the 5xx rejection for each probed host. -/
theorem all_hosts_reject_counterexample :
    smtp_check true [("mx1".data, scriptReject550), ("mx2".data, scriptReject550)]
      = .addressNotDeliverable [("mx1".data, ⟨.rcptTo, 550, "no".data⟩)] := by
  rfl

/-- Claim C1 as amended: the check operation stops at the first host whose
RCPT TO reply is 500 or above: from any reachable loop state it raises
AddressNotDeliverableError immediately, with a per-host error map holding
exactly that one host's rejection, and the remaining hosts (quantified
arbitrarily) are never probed. -/
theorem rcpt_rejected_stops_at_first (skipTls : Bool) (temp : ErrMap)
    (host : Str) (s : HostScript) (c : Int) (t : Str)
    (rest : List (Str × HostScript))
    (hb : bodyRun skipTls s = .error (.notDeliverable c t)) :
    checkLoop skipTls temp ((host, s) :: rest)
      = .addressNotDeliverable [(host, ⟨.rcptTo, c, t⟩)] := by
  simp [checkLoop, checkOne, hb]

/-- Witness for the amended C1: the first host rejects with 550 and the
exception carries only that host, although the second host would accept. -/
theorem rcpt_rejected_stops_at_first_witness :
    checkLoop true [] [("mxa".data, scriptReject550), ("mxb".data, scriptAccept)]
      = .addressNotDeliverable [("mxa".data, ⟨.rcptTo, 550, "no".data⟩)] :=
  rcpt_rejected_stops_at_first true [] "mxa".data scriptReject550 550 "no".data
    [("mxb".data, scriptAccept)] (by rfl)

/-- Counterexample to claim C2 as stated: for a single host whose TCP
connection is refused, check raises SMTPTemporaryError (the refusal is
recorded as a temporary error with code 451 under the connect command), not
SMTPCommunicationError. -/
theorem connect_refused_counterexample :
    smtp_check true [("mx".data, scriptRefusedTcp)]
      = .smtpTemporary [("mx".data, ⟨.connect, 451, "refused".data⟩)] := by
  rfl

/-- Claim C2 as amended: for every single-candidate host list where the TCP
connection is refused (the connect step fails with an OS-level error), check
raises SMTPTemporaryError whose per-host map records the connect command
with code 451 and the OS error text for that host; neither
SMTPCommunicationError nor AddressNotDeliverableError is raised. -/
theorem connect_refused_raises_temporary (skipTls : Bool) (host : Str)
    (s : HostScript) (t : Str) (hb : s.connectEv = .osError t) :
    smtp_check skipTls [(host, s)]
      = .smtpTemporary [(host, ⟨.connect, 451, t⟩)] := by
  simp [smtp_check, checkLoop, checkOne, bodyRun, hb, dictSet]

/-- Witness for the amended C2 at a concrete refused host. -/
theorem connect_refused_raises_temporary_witness :
    smtp_check false [("other".data, scriptRefusedTcp)]
      = .smtpTemporary [("other".data, ⟨.connect, 451, "refused".data⟩)] :=
  connect_refused_raises_temporary false "other".data scriptRefusedTcp
    "refused".data rfl

/-- Counterexample to claim C3 as stated: a probe sequence with a recorded
communication-stage failure (host mx1, TCP connect refused) and a recorded
temporary error (host mx2, 451 at RCPT TO) ends in SMTPTemporaryError
carrying both hosts, not in SMTPCommunicationError: the code classifies the
pre-RCPT connect failure as a temporary error rather than reporting a
communication error class first. -/
theorem communication_priority_counterexample :
    smtp_check true [("mx1".data, scriptRefusedTcp), ("mx2".data, scriptRcpt451)]
      = .smtpTemporary [("mx1".data, ⟨.connect, 451, "refused".data⟩),
          ("mx2".data, ⟨.rcptTo, 451, "grey".data⟩)] := by
  rfl

/-- Claim C3 as amended: only a pre-RCPT server reply of 500 or above
produces SMTPCommunicationError, and it does take priority: from any
reachable loop state, whatever temporary errors (connect failures, TLS
failures, 4xx replies at any stage) have been recorded, such a reply raises
SMTPCommunicationError immediately with a fresh single-host map, before any
remaining host is probed and instead of SMTPTemporaryError; all other
pre-RCPT failures are recorded as temporary errors. -/
theorem pre_rcpt_5xx_raises_communication (skipTls : Bool) (temp : ErrMap)
    (host : Str) (s : HostScript) (st : Stage) (c : Int) (t : Str)
    (rest : List (Str × HostScript))
    (hb : bodyRun skipTls s = .error (.responseExc st c t)) (hc : 500 ≤ c) :
    checkLoop skipTls temp ((host, s) :: rest)
      = .smtpCommunication [(host, ⟨st, c, t⟩)] := by
  simp [checkLoop, checkOne, hb, hc]

/-- Witness for the amended C3: a temporary error is already recorded for an
earlier host, the current host answers 550 to MAIL FROM, and check raises
SMTPCommunicationError with only the current host, although a later host
would accept. -/
theorem pre_rcpt_5xx_raises_communication_witness :
    checkLoop true [("prev".data, ⟨.rcptTo, 451, "grey".data⟩)]
        [("mx".data, scriptMail550), ("mx2".data, scriptAccept)]
      = .smtpCommunication [("mx".data, ⟨.mailFrom, 550, "policy".data⟩)] :=
  pre_rcpt_5xx_raises_communication true
    [("prev".data, ⟨.rcptTo, 451, "grey".data⟩)] "mx".data scriptMail550
    .mailFrom 550 "policy".data [("mx2".data, scriptAccept)] (by rfl) (by decide)

theorem rsplitLast_eq_none_iff (sep : Char) (s : Str) :
    rsplitLast sep s = none ↔ sep ∉ s := by
  induction s with
  | nil => simp [rsplitLast]
  | cons c cs ih =>
    simp only [rsplitLast, List.mem_cons]
    cases h : rsplitLast sep cs with
    | some p =>
      obtain ⟨u, d⟩ := p
      have hmem : sep ∈ cs := by
        by_contra hno
        rw [ih.mpr hno] at h
        exact Option.noConfusion h
      simp [hmem]
    | none =>
      have hno : sep ∉ cs := ih.mp h
      by_cases hc : c = sep
      · simp [hc]
      · simp [hc, hno, show sep ≠ c from fun hh => hc hh.symm]

theorem rsplitLast_eq_some (sep : Char) (s u d : Str)
    (h : rsplitLast sep s = some (u, d)) : s = u ++ sep :: d ∧ sep ∉ d := by
  induction s generalizing u d with
  | nil => simp [rsplitLast] at h
  | cons c cs ih =>
    simp only [rsplitLast] at h
    cases hr : rsplitLast sep cs with
    | some p =>
      obtain ⟨u', d'⟩ := p
      rw [hr] at h
      simp only [Option.some.injEq, Prod.mk.injEq] at h
      obtain ⟨hu, hd⟩ := h
      obtain ⟨ih1, ih2⟩ := ih u' d' hr
      subst hu
      subst hd
      exact ⟨by rw [ih1]; rfl, ih2⟩
    | none =>
      rw [hr] at h
      by_cases hc : c = sep
      · rw [if_pos hc] at h
        simp only [Option.some.injEq, Prod.mk.injEq] at h
        obtain ⟨hu, hd⟩ := h
        subst hu
        subst hd
        exact ⟨by rw [hc]; rfl, (rsplitLast_eq_none_iff sep cs).mp hr⟩
      · rw [if_neg hc] at h
        exact Option.noConfusion h

/-- Claim C5 as amended: constructing the address model splits the raw
string at the last at-sign (the part after it contains no further at-sign
and the parts reassemble to the raw string), and construction fails with
AddressFormatError if and only if the string contains no at-sign at all, or
the domain is not a truthy bracket literal and the IDNA/ACE transcoder
rejects it (which covers the empty domain).  An empty part before the last
at-sign does not by itself cause a failure. -/
theorem mkEmailAddress_spec (enc : Str → Option Str) (address : Str) :
    ((mkEmailAddress enc address = .error .formatError) ↔
      (rsplitLast '@' address = none ∨
        ∃ u d, rsplitLast '@' address = some (u, d) ∧ literalTruthy d = false ∧
          enc d = none)) ∧
    (rsplitLast '@' address = none ↔ '@' ∉ address) ∧
    (∀ u d, rsplitLast '@' address = some (u, d) →
      address = u ++ '@' :: d ∧ '@' ∉ d) := by
  refine ⟨?_, rsplitLast_eq_none_iff '@' address,
    fun u d h => rsplitLast_eq_some '@' address u d h⟩
  unfold mkEmailAddress
  cases h : rsplitLast '@' address with
  | none => simp
  | some p =>
    obtain ⟨u, d⟩ := p
    cases hlit : literalTruthy d with
    | true => simp [hlit]
    | false =>
      cases hec : enc d with
      | some a => simp [hlit, hec]
      | none =>
        simp [hlit, hec]
        exact ⟨u, d, ⟨rfl, rfl⟩, hlit, hec⟩

/-- Witness for the amended C5: at a concrete well-formed address the split
reassembles the raw string and the domain part holds no at-sign. -/
theorem mkEmailAddress_spec_witness :
    ("bob@example.com".data = "bob".data ++ '@' :: "example.com".data) ∧
      '@' ∉ ("example.com".data : List Char) :=
  (mkEmailAddress_spec idnaModel "bob@example.com".data).2.2 "bob".data
    "example.com".data (by rfl)

/-- Counterexample to claim C5 as stated: the claim requires construction to
fail when the part before the last at-sign is empty, but the constructor
accepts a raw string starting with the at-sign and produces an address with
an empty user part, because Python rsplit only fails when the separator is
absent and nothing else checks the user part. -/
theorem empty_user_counterexample :
    mkEmailAddress idnaModel "@example.com".data
      = .ok ⟨[], "example.com".data, "example.com".data⟩ := by
  rfl

theorem mem_toCheckAux (x : Str) : ∀ (rs seen : List Str),
    x ∈ toCheckAux rs seen → ∃ r ∈ rs, x = rstripDots r := by
  intro rs
  induction rs with
  | nil => intro seen h; simp [toCheckAux] at h
  | cons r rs ih =>
    intro seen h
    simp only [toCheckAux] at h
    by_cases hm : rstripDots r ∈ seen
    · rw [if_pos hm] at h
      obtain ⟨r', hr', he⟩ := ih seen h
      exact ⟨r', List.mem_cons_of_mem _ hr', he⟩
    · rw [if_neg hm] at h
      rcases List.mem_cons.mp h with he | h2
      · exact ⟨r, List.mem_cons_self _ _, he⟩
      · obtain ⟨r', hr', he⟩ := ih _ h2
        exact ⟨r', List.mem_cons_of_mem _ hr', he⟩

/-- Claim C7: when every exchange hostname of the answer fails the
conservative hostname check after trailing-dot stripping, the filtered
candidate list is empty and _get_cleaned_mx_records raises NoValidMXError
instead of returning an empty list. -/
theorem all_invalid_mx_raises (records : List Str)
    (h : ∀ r ∈ records, hostRegexSearch (rstripDots r) = false) :
    getCleanedMxRecords records = .error .noValidMX := by
  unfold getCleanedMxRecords
  have hf : (toCheckList records).filter hostRegexSearch = [] := by
    rw [List.filter_eq_nil_iff]
    intro a ha
    obtain ⟨r, hr, he⟩ := mem_toCheckAux a records [] ha
    simp [he, h r hr]
  simp [hf]

/-- Witness for C7: the answer containing only the root hostname, a single
dot, strips to the empty string, fails the hostname check and makes the
resolution raise NoValidMXError. -/
theorem all_invalid_mx_raises_witness :
    getCleanedMxRecords [".".data] = .error .noValidMX :=
  all_invalid_mx_raises [".".data] (by decide)

theorem firstSeenDedup_cons (x : Str) (xs : List Str) :
    firstSeenDedup (x :: xs)
      = x :: firstSeenDedup (xs.filter (fun y => decide (y ≠ x))) := by
  rw [firstSeenDedup]

theorem toCheckAux_eq_firstSeenDedup : ∀ (rs seen : List Str),
    toCheckAux rs seen
      = firstSeenDedup ((rs.map rstripDots).filter (fun d => !decide (d ∈ seen))) := by
  intro rs
  induction rs with
  | nil =>
    intro seen
    simp [toCheckAux, firstSeenDedup]
  | cons r rs ih =>
    intro seen
    simp only [toCheckAux, List.map_cons, List.filter_cons]
    by_cases hm : rstripDots r ∈ seen
    · rw [if_pos hm]
      have hcond : (!decide (rstripDots r ∈ seen)) = false := by simp [hm]
      rw [hcond, if_neg Bool.false_ne_true]
      exact ih seen
    · rw [if_neg hm]
      have hcond : (!decide (rstripDots r ∈ seen)) = true := by simp [hm]
      rw [hcond, if_pos rfl]
      rw [firstSeenDedup_cons]
      rw [ih (rstripDots r :: seen)]
      congr 1
      rw [List.filter_filter]
      congr 1
      apply List.filter_congr
      intro a ha
      by_cases h1 : a = rstripDots r <;> by_cases h2 : a ∈ seen <;>
        simp [h1, h2, List.mem_cons]

theorem toCheckList_eq (records : List Str) :
    toCheckList records = firstSeenDedup (records.map rstripDots) := by
  unfold toCheckList
  rw [toCheckAux_eq_firstSeenDedup]
  congr 1
  simp

theorem toCheckAux_nodup_aux : ∀ (rs seen : List Str),
    (∀ x ∈ toCheckAux rs seen, x ∉ seen) ∧ (toCheckAux rs seen).Nodup := by
  intro rs
  induction rs with
  | nil => intro seen; exact ⟨by simp [toCheckAux], by simp [toCheckAux]⟩
  | cons r rs ih =>
    intro seen
    simp only [toCheckAux]
    by_cases hm : rstripDots r ∈ seen
    · rw [if_pos hm]
      exact ih seen
    · rw [if_neg hm]
      obtain ⟨hmem, hnd⟩ := ih (rstripDots r :: seen)
      constructor
      · intro x hx
        rcases List.mem_cons.mp hx with he | h2
        · subst he; exact hm
        · intro hs
          exact hmem x h2 (List.mem_cons_of_mem _ hs)
      · refine List.nodup_cons.mpr ⟨?_, hnd⟩
        intro hc
        exact hmem _ hc (List.mem_cons_self _ _)

theorem toCheckList_nodup (records : List Str) : (toCheckList records).Nodup :=
  (toCheckAux_nodup_aux records []).2

/-- Claim C6 as amended: the candidate list is built from the exchange
hostnames in answer order with trailing dots stripped, deduplicated by
exact string comparison (case-sensitive, without case normalization)
keeping the first occurrence of each hostname at its first-seen position,
then filtered by the hostname check; the deduplicated list holds no
duplicates. -/
theorem cleaned_mx_first_seen_dedup (records : List Str) :
    toCheckList records = firstSeenDedup (records.map rstripDots) ∧
      (toCheckList records).Nodup ∧
      getCleanedMxRecords records =
        (if (firstSeenDedup (records.map rstripDots)).filter hostRegexSearch = []
         then .error .noValidMX
         else .ok ((firstSeenDedup (records.map rstripDots)).filter hostRegexSearch)) := by
  refine ⟨toCheckList_eq records, toCheckList_nodup records, ?_⟩
  unfold getCleanedMxRecords
  rw [toCheckList_eq]

/-- Counterexample to claim C6 as stated: an answer holding the same
hostname twice up to letter case (and a trailing root dot) keeps both
copies, because the deduplication of _get_cleaned_mx_records compares
exact strings and performs no case normalization, so the resolved list does
not contain each hostname exactly once after case normalization. -/
theorem case_normalization_counterexample :
    getCleanedMxRecords ["A.COM.".data, "a.com".data]
      = .ok ["A.COM".data, "a.com".data] ∧
      "A.COM".data.map Char.toLower = "a.com".data.map Char.toLower := by
  exact ⟨by rfl, by rfl⟩

theorem mkEmailAddress_literal_ace (enc : Str → Option Str) (address : Str)
    (e : EmailAddress) (he : mkEmailAddress enc address = .ok e)
    (htr : literalTruthy e.domain = true) : e.ace_domain = e.domain := by
  unfold mkEmailAddress at he
  cases h : rsplitLast '@' address with
  | none => rw [h] at he; exact Except.noConfusion he
  | some p =>
    obtain ⟨u, d⟩ := p
    rw [h] at he
    cases hlit : literalTruthy d with
    | true =>
      simp only [hlit, if_true] at he
      cases he
      rfl
    | false =>
      simp only [hlit, if_false] at he
      cases hec : enc d with
      | some a =>
        rw [hec] at he
        cases he
        rw [hlit] at htr
        exact Bool.noConfusion htr
      | none =>
        rw [hec] at he
        exact Except.noConfusion he

/-- Claim C8: for every address whose domain is a truthy bracketed IP
literal, the ACE domain equals the bracketed domain unchanged (no IDNA
transcoding is applied, whatever the transcoder), and dns_check
short-circuits to the single-element candidate list holding exactly the
literal IP, for every possible behaviour of the non-literal DNS branch, so
no DNS MX query is issued. -/
theorem literal_ip_short_circuit (enc : Str → Option Str) (address : Str)
    (e : EmailAddress) (he : mkEmailAddress enc address = .ok e)
    (lit : Str) (hl : domainLiteralIp e.domain = some lit) (hne : lit ≠ [])
    (ipParse : Str → Option IPKind) (addressTypes : List IPKind) (k : IPKind)
    (hk : ipParse lit = some k) (hmem : k ∈ addressTypes)
    (nonLiteral : Str → Except MXErr (List Str)) :
    e.ace_domain = e.domain ∧
      dns_check nonLiteral ipParse addressTypes e = .ok [lit] := by
  have htr : literalTruthy e.domain = true := by
    unfold literalTruthy
    rw [hl]
    cases lit with
    | nil => exact absurd rfl hne
    | cons a l => rfl
  refine ⟨mkEmailAddress_literal_ace enc address e he htr, ?_⟩
  unfold dns_check
  simp [htr, hl, hk, hmem]

/-- Witness for C8 at a concrete literal-IP address: the address parses,
the ACE domain keeps the brackets, and dns_check returns the literal as the
only candidate for an arbitrary non-literal branch. -/
theorem literal_ip_short_circuit_witness :
    (EmailAddress.ace_domain ⟨"user".data, "[1.2.3.4]".data, "[1.2.3.4]".data⟩
        = "[1.2.3.4]".data) ∧
      dns_check (fun _ => .error .noMX) ipModel [IPKind.v4, IPKind.v6]
          ⟨"user".data, "[1.2.3.4]".data, "[1.2.3.4]".data⟩
        = .ok ["1.2.3.4".data] :=
  literal_ip_short_circuit idnaModel "user@[1.2.3.4]".data
    ⟨"user".data, "[1.2.3.4]".data, "[1.2.3.4]".data⟩ (by rfl)
    "1.2.3.4".data (by rfl) (by decide) ipModel [IPKind.v4, IPKind.v6] .v4
    (by rfl) (by decide) (fun _ => .error .noMX)
